import Mathlib

/-!
Verification development for the Flick multi-effect pedal firmware
(control core: soft takeover, tap tempo, settings persistence, bypass
handling in the audio callback).

Embedding conventions:
- C `float` values are embedded as `ℚ`.  All arithmetic used by the
  properties below (comparison, absolute value, multiplication, division,
  clamping) is exact on the rational embedding of the decimal constants in
  the source.
- The millisecond monotonic clock (`System::GetNow`, `uint32_t`) is
  embedded as `ℕ`; theorems about tap intervals assume a non-decreasing
  clock so that the C unsigned subtraction agrees with truncated `ℕ`
  subtraction.
- Stateful C++ objects become structures, and their member functions
  become pure functions returning the result together with the updated
  state.
-/

namespace Flick

/-- Clamp as in daisysp fclamp: min (max x lo) hi. -/
def fclamp (x lo hi : ℚ) : ℚ := min (max x lo) hi

/-- One-pole smoother as in daisysp fonepole: out += coeff * (in - out). -/
def fonepole (out inp coeff : ℚ) : ℚ := out + coeff * (inp - out)

/-- KNOB_TAKEOVER_THRESHOLD = 0.05f. -/
def KNOB_TAKEOVER_THRESHOLD : ℚ := 5/100

/-- Soft takeover for knobs, parameter_capture.h variant whose Process()
takes no argument: state is the frozen raw knob position, the cached
parameter value and the frozen flag. -/
structure KnobCapture where
  frozen_knob : ℚ
  frozen_value : ℚ
  is_frozen : Bool
  threshold : ℚ
deriving DecidableEq, Repr

/-- KnobCapture::Capture: record the raw knob position as baseline, cache
the parameter value, and enter the frozen state. -/
def KnobCapture.capture (k : KnobCapture) (knobPos value : ℚ) : KnobCapture :=
  { k with frozen_knob := knobPos, frozen_value := value, is_frozen := true }

/-- KnobCapture::Process: reads the current raw knob position.  When not
frozen, pass the current position through.  When frozen, compare the
movement from the baseline against the threshold: at movement >= threshold
unfreeze and pass through; otherwise return the frozen baseline position. -/
def KnobCapture.process (k : KnobCapture) (current : ℚ) : ℚ × KnobCapture :=
  if k.is_frozen = false then
    (current, k)
  else if |current - k.frozen_knob| ≥ k.threshold then
    (current, { k with is_frozen := false })
  else
    (k.frozen_knob, k)

/-- Iterate KnobCapture::Process over a list of raw knob readings,
collecting the returned values and the final state. -/
def KnobCapture.processTrace (k : KnobCapture) : List ℚ → List ℚ × KnobCapture
  | [] => ([], k)
  | x :: xs =>
    let p := k.process x
    let r := p.2.processTrace xs
    (p.1 :: r.1, r.2)

/-- Soft takeover helper used by tap tempo and reverb edit mode in the
main control file: only the entry position and the taken-over flag. -/
structure KnobTakeover where
  entry_value : ℚ
  taken_over : Bool
deriving DecidableEq, Repr

/-- KnobTakeover::capture: record the current knob value and clear the
taken-over flag. -/
def KnobTakeover.capture (_t : KnobTakeover) (knobVal : ℚ) : KnobTakeover :=
  { entry_value := knobVal, taken_over := false }

/-- KnobTakeover::checkTakeover: once taken over, always report control;
before that, take over exactly when the movement from the entry position
is strictly greater than the threshold. -/
def KnobTakeover.checkTakeover (t : KnobTakeover) (currentValue threshold : ℚ) :
    Bool × KnobTakeover :=
  if t.taken_over = false then
    if |currentValue - t.entry_value| > threshold then
      (true, { t with taken_over := true })
    else
      (false, t)
  else
    (true, t)

/-- Iterate KnobTakeover::checkTakeover over a list of raw knob readings,
collecting the returned booleans and the final state. -/
def KnobTakeover.checkTrace (t : KnobTakeover) (threshold : ℚ) :
    List ℚ → List Bool × KnobTakeover
  | [] => ([], t)
  | x :: xs =>
    let p := t.checkTakeover x threshold
    let r := p.2.checkTrace threshold xs
    (p.1 :: r.1, r.2)

section TakeoverLemmas

/-- While every reading stays strictly inside the threshold, a frozen
KnobCapture returns the baseline on every call and stays frozen. -/
lemma KnobCapture.processTrace_frozen (k : KnobCapture) (xs : List ℚ)
    (hk : k.is_frozen = true)
    (h : ∀ x ∈ xs, |x - k.frozen_knob| < k.threshold) :
    k.processTrace xs = (xs.map fun _ => k.frozen_knob, k) := by
  induction xs with
  | nil => rfl
  | cons x xs ih =>
    have hx := h x (List.mem_cons_self x xs)
    have hstep : k.process x = (k.frozen_knob, k) := by
      unfold KnobCapture.process
      rw [hk]
      simp [not_le.mpr hx]
    have ihr := ih (fun y hy => h y (List.mem_cons_of_mem x hy))
    simp [KnobCapture.processTrace, hstep, ihr]

/-- Once unfrozen, KnobCapture passes every reading through unchanged and
never returns to the frozen state. -/
lemma KnobCapture.processTrace_passthrough (k : KnobCapture) (xs : List ℚ)
    (hk : k.is_frozen = false) :
    k.processTrace xs = (xs, k) := by
  induction xs with
  | nil => rfl
  | cons x xs ih =>
    have hstep : k.process x = (x, k) := by
      unfold KnobCapture.process
      rw [hk]
      simp
    simp [KnobCapture.processTrace, hstep, ih]

/-- A frozen KnobCapture unfreezes and passes through at the first reading
whose movement from the baseline reaches the threshold. -/
lemma KnobCapture.process_takeover (k : KnobCapture) (x : ℚ)
    (hk : k.is_frozen = true) (h : |x - k.frozen_knob| ≥ k.threshold) :
    k.process x = (x, { k with is_frozen := false }) := by
  unfold KnobCapture.process
  rw [hk]
  simp [h]

/-- While every reading stays within the threshold (not strictly beyond
it), a captured KnobTakeover keeps reporting that the knob does not
control, and stays not taken over. -/
lemma KnobTakeover.checkTrace_frozen (t : KnobTakeover) (T : ℚ) (xs : List ℚ)
    (ht : t.taken_over = false)
    (h : ∀ x ∈ xs, |x - t.entry_value| ≤ T) :
    t.checkTrace T xs = (xs.map fun _ => false, t) := by
  induction xs with
  | nil => rfl
  | cons x xs ih =>
    have hx := h x (List.mem_cons_self x xs)
    have hstep : t.checkTakeover x T = (false, t) := by
      unfold KnobTakeover.checkTakeover
      rw [ht]
      simp [not_lt.mpr hx]
    have ihr := ih (fun y hy => h y (List.mem_cons_of_mem x hy))
    simp [KnobTakeover.checkTrace, hstep, ihr]

/-- Once taken over, KnobTakeover keeps reporting control on every call. -/
lemma KnobTakeover.checkTrace_taken (t : KnobTakeover) (T : ℚ) (xs : List ℚ)
    (ht : t.taken_over = true) :
    t.checkTrace T xs = (xs.map fun _ => true, t) := by
  induction xs with
  | nil => rfl
  | cons x xs ih =>
    have hstep : t.checkTakeover x T = (true, t) := by
      unfold KnobTakeover.checkTakeover
      rw [ht]
      simp
    simp [KnobTakeover.checkTrace, hstep, ih]

/-- A captured KnobTakeover takes over at the first reading whose movement
from the entry position strictly exceeds the threshold. -/
lemma KnobTakeover.checkTakeover_takeover (t : KnobTakeover) (x T : ℚ)
    (ht : t.taken_over = false) (h : |x - t.entry_value| > T) :
    t.checkTakeover x T = (true, { t with taken_over := true }) := by
  unfold KnobTakeover.checkTakeover
  rw [ht]
  simp [h]

/-- Splitting a KnobCapture trace across an append. -/
lemma KnobCapture.processTrace_append (k : KnobCapture) (xs ys : List ℚ) :
    k.processTrace (xs ++ ys) =
      ((k.processTrace xs).1 ++ ((k.processTrace xs).2.processTrace ys).1,
       ((k.processTrace xs).2.processTrace ys).2) := by
  induction xs generalizing k with
  | nil => simp [KnobCapture.processTrace]
  | cons x xs ih => simp [KnobCapture.processTrace, ih]

/-- Splitting a KnobTakeover trace across an append. -/
lemma KnobTakeover.checkTrace_append (t : KnobTakeover) (T : ℚ) (xs ys : List ℚ) :
    t.checkTrace T (xs ++ ys) =
      ((t.checkTrace T xs).1 ++ ((t.checkTrace T xs).2.checkTrace T ys).1,
       ((t.checkTrace T xs).2.checkTrace T ys).2) := by
  induction xs generalizing t with
  | nil => simp [KnobTakeover.checkTrace]
  | cons x xs ih => simp [KnobTakeover.checkTrace, ih]

end TakeoverLemmas

/-- C1 counterexample: the claim states that the takeover object switches
to pass-through at the first call where the movement reaches the threshold
(movement >= T).  For KnobTakeover::checkTakeover this is false: with
baseline 0, threshold 0.05 and a current reading of exactly 0.05, the
movement equals the threshold, yet checkTakeover reports that the knob
does not control and stays not taken over. -/
theorem C1_counterexample :
    |((5:ℚ)/100) - ((KnobTakeover.capture ⟨0, true⟩ 0).entry_value)| ≥
        KNOB_TAKEOVER_THRESHOLD ∧
    ((KnobTakeover.capture ⟨0, true⟩ 0).checkTakeover (5/100)
        KNOB_TAKEOVER_THRESHOLD).1 = false ∧
    ((KnobTakeover.capture ⟨0, true⟩ 0).checkTakeover (5/100)
        KNOB_TAKEOVER_THRESHOLD).2.taken_over = false := by
  have habs : |(5:ℚ)/100| = 5/100 := abs_of_nonneg (by norm_num)
  refine ⟨?_, ?_, ?_⟩ <;>
    simp [KnobTakeover.capture, KnobTakeover.checkTakeover,
      KNOB_TAKEOVER_THRESHOLD, habs]

/-- C1 (amended): soft takeover.  After Capture records a baseline raw
control position, KnobCapture::Process returns the frozen baseline value
for every reading whose movement from the baseline is strictly below the
threshold, and at the first reading with movement >= threshold it switches
to pass-through and returns the live reading from then on, never
re-freezing until the next Capture.  KnobTakeover::checkTakeover behaves
the same way except that its switching condition is strict: it stays
frozen for movement <= threshold and takes over at the first reading whose
movement is strictly greater than the threshold, irreversibly. -/
theorem C1_soft_takeover (k : KnobCapture) (b v x : ℚ) (xs ys : List ℚ)
    (hxs : ∀ r ∈ xs, |r - b| < k.threshold)
    (hx : |x - b| ≥ k.threshold)
    (t : KnobTakeover) (e T y : ℚ) (us vs : List ℚ)
    (hus : ∀ r ∈ us, |r - e| ≤ T)
    (hy : |y - e| > T) :
    (k.capture b v).processTrace (xs ++ x :: ys) =
      (xs.map (fun _ => b) ++ x :: ys,
        { k.capture b v with is_frozen := false }) ∧
    (t.capture e).checkTrace T (us ++ y :: vs) =
      (us.map (fun _ => false) ++ true :: vs.map (fun _ => true),
        { entry_value := e, taken_over := true }) := by
  constructor
  · have hcap : k.capture b v = ⟨b, v, true, k.threshold⟩ := rfl
    have h1 : KnobCapture.processTrace ⟨b, v, true, k.threshold⟩ xs =
        (xs.map fun _ => b, ⟨b, v, true, k.threshold⟩) :=
      KnobCapture.processTrace_frozen ⟨b, v, true, k.threshold⟩ xs rfl hxs
    have h2 : KnobCapture.process ⟨b, v, true, k.threshold⟩ x =
        (x, ⟨b, v, false, k.threshold⟩) :=
      KnobCapture.process_takeover ⟨b, v, true, k.threshold⟩ x rfl hx
    have h3 : KnobCapture.processTrace ⟨b, v, false, k.threshold⟩ ys =
        (ys, ⟨b, v, false, k.threshold⟩) :=
      KnobCapture.processTrace_passthrough ⟨b, v, false, k.threshold⟩ ys rfl
    have hcons : KnobCapture.processTrace ⟨b, v, true, k.threshold⟩ (x :: ys) =
        (x :: ys, ⟨b, v, false, k.threshold⟩) := by
      simp only [KnobCapture.processTrace, h2, h3]
    rw [hcap, KnobCapture.processTrace_append, h1, hcons]
  · have hcap : t.capture e = ⟨e, false⟩ := rfl
    have h1 : KnobTakeover.checkTrace ⟨e, false⟩ T us =
        (us.map fun _ => false, ⟨e, false⟩) :=
      KnobTakeover.checkTrace_frozen ⟨e, false⟩ T us rfl hus
    have h2 : KnobTakeover.checkTakeover ⟨e, false⟩ y T = (true, ⟨e, true⟩) :=
      KnobTakeover.checkTakeover_takeover ⟨e, false⟩ y T rfl hy
    have h3 : KnobTakeover.checkTrace ⟨e, true⟩ T vs =
        (vs.map fun _ => true, ⟨e, true⟩) :=
      KnobTakeover.checkTrace_taken ⟨e, true⟩ T vs rfl
    have hcons : KnobTakeover.checkTrace ⟨e, false⟩ T (y :: vs) =
        (true :: vs.map fun _ => true, ⟨e, true⟩) := by
      simp only [KnobTakeover.checkTrace, h2, h3]
    rw [hcap, KnobTakeover.checkTrace_append, h1, hcons]

/-- C1 witness: the amended soft-takeover theorem instantiated at concrete
trajectories, including a KnobTakeover reading exactly at the threshold
(movement = 0.05 stays frozen) before the strict crossing. -/
theorem C1_soft_takeover_witness :
    (∀ r ∈ [(52:ℚ)/100, 48/100], |r - 1/2| < (5:ℚ)/100) ∧
    |((60:ℚ)/100) - 1/2| ≥ (5:ℚ)/100 ∧
    (∀ r ∈ [(54:ℚ)/100, 55/100], |r - 1/2| ≤ (5:ℚ)/100) ∧
    |((58:ℚ)/100) - 1/2| > (5:ℚ)/100 ∧
    ((⟨0, 0, false, 5/100⟩ : KnobCapture).capture (1/2) (3/10)).processTrace
        ([52/100, 48/100] ++ 60/100 :: [1/2]) =
      ([1/2, 1/2] ++ 60/100 :: [1/2],
        { (⟨0, 0, false, 5/100⟩ : KnobCapture).capture (1/2) (3/10) with
            is_frozen := false }) ∧
    ((⟨0, false⟩ : KnobTakeover).capture (1/2)).checkTrace (5/100)
        ([54/100, 55/100] ++ 58/100 :: [1/2]) =
      ([false, false] ++ true :: [true], ⟨1/2, true⟩) := by
  have ha : |((52:ℚ)/100) - 1/2| = 2/100 := by
    rw [show ((52:ℚ)/100) - 1/2 = 2/100 by norm_num]
    exact abs_of_nonneg (by norm_num)
  have hb : |((48:ℚ)/100) - 1/2| = 2/100 := by
    rw [show ((48:ℚ)/100) - 1/2 = -(2/100) by norm_num, abs_neg]
    exact abs_of_nonneg (by norm_num)
  have hc : |((54:ℚ)/100) - 1/2| = 4/100 := by
    rw [show ((54:ℚ)/100) - 1/2 = 4/100 by norm_num]
    exact abs_of_nonneg (by norm_num)
  have hd : |((55:ℚ)/100) - 1/2| = 5/100 := by
    rw [show ((55:ℚ)/100) - 1/2 = 5/100 by norm_num]
    exact abs_of_nonneg (by norm_num)
  have h1 : ∀ r ∈ [(52:ℚ)/100, 48/100], |r - 1/2| < (5:ℚ)/100 := by
    intro r hr
    simp only [List.mem_cons, List.not_mem_nil, or_false] at hr
    rcases hr with rfl | rfl
    · rw [ha]; norm_num
    · rw [hb]; norm_num
  have h2 : |((60:ℚ)/100) - 1/2| ≥ (5:ℚ)/100 := by
    rw [show ((60:ℚ)/100) - 1/2 = 10/100 by norm_num,
      abs_of_nonneg (by norm_num : (0:ℚ) ≤ 10/100)]
    norm_num
  have h3 : ∀ r ∈ [(54:ℚ)/100, 55/100], |r - 1/2| ≤ (5:ℚ)/100 := by
    intro r hr
    simp only [List.mem_cons, List.not_mem_nil, or_false] at hr
    rcases hr with rfl | rfl
    · rw [hc]; norm_num
    · rw [hd]
  have h4 : |((58:ℚ)/100) - 1/2| > (5:ℚ)/100 := by
    rw [show ((58:ℚ)/100) - 1/2 = 8/100 by norm_num,
      abs_of_nonneg (by norm_num : (0:ℚ) ≤ 8/100)]
    norm_num
  have hmain := C1_soft_takeover (⟨0, 0, false, 5/100⟩ : KnobCapture)
    (1/2) (3/10) (60/100) [52/100, 48/100] [1/2] h1 h2
    (⟨0, false⟩ : KnobTakeover) (1/2) (5/100) (58/100)
    [54/100, 55/100] [1/2] h3 h4
  exact ⟨h1, h2, h3, h4, hmain.1, hmain.2⟩

/-! Tap tempo, pedal modes and the control-state globals of the main
control file. -/

/-- SAMPLE_RATE = 48000.0f. -/
def SAMPLE_RATE : ℚ := 48000

/-- MAX_DELAY = SAMPLE_RATE * 2.0f (in samples). -/
def MAX_DELAY : ℕ := 96000

/-- TREMOLO_SPEED_MIN = 0.2f Hz. -/
def TREMOLO_SPEED_MIN : ℚ := 2/10

/-- TREMOLO_SPEED_MAX = 16.0f Hz. -/
def TREMOLO_SPEED_MAX : ℚ := 16

/-- TAP_TEMPO_MIN_INTERVAL_MS = 20. -/
def TAP_TEMPO_MIN_INTERVAL_MS : ℕ := 20

/-- TAP_TEMPO_MAX_INTERVAL_MS = 4000. -/
def TAP_TEMPO_MAX_INTERVAL_MS : ℕ := 4000

/-- MS_PER_SECOND = 1000.0f. -/
def MS_PER_SECOND : ℚ := 1000

/-- TAP_TEMPO_SAMPLES_MIN = (20 / 1000) * 48000 = 960 samples (20 ms). -/
def TAP_TEMPO_SAMPLES_MIN : ℚ :=
  ((TAP_TEMPO_MIN_INTERVAL_MS : ℚ) / MS_PER_SECOND) * SAMPLE_RATE

/-- TAP_TEMPO_SAMPLES_MAX = (4000 / 1000) * 48000 = 192000 samples (4 s). -/
def TAP_TEMPO_SAMPLES_MAX : ℚ :=
  ((TAP_TEMPO_MAX_INTERVAL_MS : ℚ) / MS_PER_SECOND) * SAMPLE_RATE

/-- The pedal-mode state machine variants. -/
inductive PedalMode
  | normal
  | editReverb
  | editMonoStereo
  | tapTempo
deriving DecidableEq, Repr

/-- Switch-position change detector used for the three reverb edit
switches: entry position and changed flag. -/
structure SwitchChangeDetector where
  entry_position : Int
  changed : Bool
deriving DecidableEq, Repr

/-- SwitchChangeDetector::capture: record the current switch position and
clear the changed flag. -/
def SwitchChangeDetector.capture (_d : SwitchChangeDetector) (pos : Int) :
    SwitchChangeDetector :=
  { entry_position := pos, changed := false }

/-- The control-facing globals of the main control file that the mode
machine, the tap-tempo subsystem and the block-rate parameter refresh
read and write. -/
structure ControlState where
  pedal_mode : PedalMode
  bypass_verb : Bool
  bypass_delay : Bool
  bypass_trem : Bool
  tap_tempo_active : Bool
  tap_tempo_last_tap_time : ℕ
  tap_tempo_interval_ms : ℕ
  tap_tempo_delay_samples : ℚ
  tap_tempo_controls_delay : Bool
  tap_tempo_tremolo_freq_hz : ℚ
  tap_tempo_controls_tremolo : Bool
  tap_tempo_delay_knob_takeover : KnobTakeover
  tap_tempo_tremolo_knob_takeover : KnobTakeover
  reverb_edit_wet_amount_knob : KnobTakeover
  reverb_edit_pre_delay_knob : KnobTakeover
  reverb_edit_decay_knob : KnobTakeover
  reverb_edit_diffusion_knob : KnobTakeover
  reverb_edit_input_cut_knob : KnobTakeover
  reverb_edit_tank_cut_knob : KnobTakeover
  reverb_edit_mod_speed_switch : SwitchChangeDetector
  reverb_edit_mod_depth_switch : SwitchChangeDetector
  reverb_edit_mod_shape_switch : SwitchChangeDetector
  master_delay_time_samples : ℚ
  osc_freq : ℚ
  delayL_target : ℚ
  delayR_target : ℚ
deriving DecidableEq, Repr

/-- handleTapTempoTap: on a tap at currentTime, if a previous tap exists,
measure the interval; when it is within [20 ms, 4000 ms], store it, derive
the delay time in samples as clamp((interval/1000)*48000, 960, 192000) and
the tremolo frequency as clamp(1000/interval, 0.2, 16.0), and set the
master delay time; otherwise change nothing but the last-tap timestamp. -/
def handleTapTempoTap (st : ControlState) (currentTime : ℕ) : ControlState :=
  let st1 :=
    if 0 < st.tap_tempo_last_tap_time then
      let interval := currentTime - st.tap_tempo_last_tap_time
      if TAP_TEMPO_MIN_INTERVAL_MS ≤ interval ∧
          interval ≤ TAP_TEMPO_MAX_INTERVAL_MS then
        let ds := fclamp (((interval : ℚ) / MS_PER_SECOND) * SAMPLE_RATE)
          TAP_TEMPO_SAMPLES_MIN TAP_TEMPO_SAMPLES_MAX
        let tf := fclamp (MS_PER_SECOND / (interval : ℚ))
          TREMOLO_SPEED_MIN TREMOLO_SPEED_MAX
        { st with
            tap_tempo_interval_ms := interval,
            tap_tempo_delay_samples := ds,
            tap_tempo_tremolo_freq_hz := tf,
            master_delay_time_samples := ds }
      else st
    else st
  { st1 with tap_tempo_last_tap_time := currentTime }

/-- C2: tap tempo conversion.  For two consecutive taps with measured
interval I in [20 ms, 4000 ms], handleTapTempoTap stores the delay time
clamp((I/1000)*48000, 960, 192000) samples and the tremolo frequency
clamp(1000/I, 0.2, 16.0) Hz; for I outside that range the previously
stored delay time and tremolo frequency are unchanged. -/
theorem C2_tap_tempo_conversion (st : ControlState) (t : ℕ)
    (hprev : 0 < st.tap_tempo_last_tap_time)
    (_hmono : st.tap_tempo_last_tap_time ≤ t) :
    (TAP_TEMPO_MIN_INTERVAL_MS ≤ t - st.tap_tempo_last_tap_time ∧
        t - st.tap_tempo_last_tap_time ≤ TAP_TEMPO_MAX_INTERVAL_MS →
      (handleTapTempoTap st t).tap_tempo_delay_samples =
        fclamp ((((t - st.tap_tempo_last_tap_time : ℕ) : ℚ) / MS_PER_SECOND) *
          SAMPLE_RATE) TAP_TEMPO_SAMPLES_MIN TAP_TEMPO_SAMPLES_MAX ∧
      (handleTapTempoTap st t).tap_tempo_tremolo_freq_hz =
        fclamp (MS_PER_SECOND / ((t - st.tap_tempo_last_tap_time : ℕ) : ℚ))
          TREMOLO_SPEED_MIN TREMOLO_SPEED_MAX) ∧
    (t - st.tap_tempo_last_tap_time < TAP_TEMPO_MIN_INTERVAL_MS ∨
        TAP_TEMPO_MAX_INTERVAL_MS < t - st.tap_tempo_last_tap_time →
      (handleTapTempoTap st t).tap_tempo_delay_samples =
        st.tap_tempo_delay_samples ∧
      (handleTapTempoTap st t).tap_tempo_tremolo_freq_hz =
        st.tap_tempo_tremolo_freq_hz) := by
  constructor
  · intro hin
    simp [handleTapTempoTap, hprev, hin]
  · intro hout
    have hnot : ¬(TAP_TEMPO_MIN_INTERVAL_MS ≤ t - st.tap_tempo_last_tap_time ∧
        t ≤ TAP_TEMPO_MAX_INTERVAL_MS + st.tap_tempo_last_tap_time) := by
      rcases hout with h | h
      · exact fun hc => absurd hc.1 (not_le.mpr h)
      · exact fun hc => absurd hc.2 (not_le.mpr (lt_tsub_iff_right.mp h))
    simp [handleTapTempoTap, hprev, hnot]

/-- C2 witness: a pair of taps 500 ms apart (valid) computes 24000 samples
and 2 Hz; a pair 5000 ms apart (too slow) leaves the stored tempo
untouched. -/
theorem C2_tap_tempo_conversion_witness :
    (0 < 100 ∧ 100 ≤ 600) ∧
    (TAP_TEMPO_MIN_INTERVAL_MS ≤ 600 - 100 ∧
        600 - 100 ≤ TAP_TEMPO_MAX_INTERVAL_MS →
      (handleTapTempoTap
          { pedal_mode := .tapTempo, bypass_verb := true, bypass_delay := true,
            bypass_trem := true, tap_tempo_active := true,
            tap_tempo_last_tap_time := 100, tap_tempo_interval_ms := 0,
            tap_tempo_delay_samples := 0, tap_tempo_controls_delay := true,
            tap_tempo_tremolo_freq_hz := 0, tap_tempo_controls_tremolo := true,
            tap_tempo_delay_knob_takeover := ⟨0, false⟩,
            tap_tempo_tremolo_knob_takeover := ⟨0, false⟩,
            reverb_edit_wet_amount_knob := ⟨0, false⟩,
            reverb_edit_pre_delay_knob := ⟨0, false⟩,
            reverb_edit_decay_knob := ⟨0, false⟩,
            reverb_edit_diffusion_knob := ⟨0, false⟩,
            reverb_edit_input_cut_knob := ⟨0, false⟩,
            reverb_edit_tank_cut_knob := ⟨0, false⟩,
            reverb_edit_mod_speed_switch := ⟨0, false⟩,
            reverb_edit_mod_depth_switch := ⟨0, false⟩,
            reverb_edit_mod_shape_switch := ⟨0, false⟩,
            master_delay_time_samples := 0, osc_freq := 0,
            delayL_target := 0, delayR_target := 0 } 600).tap_tempo_delay_samples =
        fclamp ((((600 - 100 : ℕ) : ℚ) / MS_PER_SECOND) * SAMPLE_RATE)
          TAP_TEMPO_SAMPLES_MIN TAP_TEMPO_SAMPLES_MAX ∧
      (handleTapTempoTap
          { pedal_mode := .tapTempo, bypass_verb := true, bypass_delay := true,
            bypass_trem := true, tap_tempo_active := true,
            tap_tempo_last_tap_time := 100, tap_tempo_interval_ms := 0,
            tap_tempo_delay_samples := 0, tap_tempo_controls_delay := true,
            tap_tempo_tremolo_freq_hz := 0, tap_tempo_controls_tremolo := true,
            tap_tempo_delay_knob_takeover := ⟨0, false⟩,
            tap_tempo_tremolo_knob_takeover := ⟨0, false⟩,
            reverb_edit_wet_amount_knob := ⟨0, false⟩,
            reverb_edit_pre_delay_knob := ⟨0, false⟩,
            reverb_edit_decay_knob := ⟨0, false⟩,
            reverb_edit_diffusion_knob := ⟨0, false⟩,
            reverb_edit_input_cut_knob := ⟨0, false⟩,
            reverb_edit_tank_cut_knob := ⟨0, false⟩,
            reverb_edit_mod_speed_switch := ⟨0, false⟩,
            reverb_edit_mod_depth_switch := ⟨0, false⟩,
            reverb_edit_mod_shape_switch := ⟨0, false⟩,
            master_delay_time_samples := 0, osc_freq := 0,
            delayL_target := 0, delayR_target := 0 } 600).tap_tempo_tremolo_freq_hz =
        fclamp (MS_PER_SECOND / ((600 - 100 : ℕ) : ℚ))
          TREMOLO_SPEED_MIN TREMOLO_SPEED_MAX) := by
  refine ⟨⟨by norm_num, by norm_num⟩, ?_⟩
  exact fun h => (C2_tap_tempo_conversion _ 600 (by norm_num) (by norm_num)).1 h

/-! Tremolo depth scaling (block-rate parameter refresh, normal mode). -/

/-- The three tremolo modes selected by toggle switch 2. -/
inductive TremoloMode
  | sine
  | harmonic
  | square
deriving DecidableEq, Repr

/-- Tremolo depth after mode scaling, as computed in the normal-mode
parameter refresh: the raw knob parameter is clamped to [0,1] and then
multiplied by 1.25 in harmonic mode and by 0.5 in the other two modes. -/
def tremoloDepthScaled (raw : ℚ) (mode : TremoloMode) : ℚ :=
  let depth := fclamp raw 0 1
  match mode with
  | .harmonic => depth * (5/4)
  | _ => depth * (1/2)

/-- Per-mode upper bound actually attained by the depth scaling. -/
def tremoloDepthBound : TremoloMode → ℚ
  | .harmonic => 5/4
  | _ => 1/2

/-- C3 counterexample: with the depth knob fully up, harmonic mode scales
the clamped depth by 1.25 (not by 0.5 * 1.25), giving 1.25, which is
outside the claimed range 0 to 0.625. -/
theorem C3_counterexample :
    tremoloDepthScaled 1 TremoloMode.harmonic = 5/4 ∧
    ¬(tremoloDepthScaled 1 TremoloMode.harmonic ≤ 5/8) := by
  have h : tremoloDepthScaled 1 TremoloMode.harmonic = 5/4 := by
    norm_num [tremoloDepthScaled, fclamp]
  exact ⟨h, by rw [h]; norm_num⟩

/-- C3 (amended): for every knob reading and mode, the scaled tremolo
depth lies in 0 to 0.5 for the sine and square modes and in 0 to 1.25 for
the harmonic mode (the harmonic multiplier is 1.25 applied in place of
0.5, not on top of it). -/
theorem C3_tremolo_depth_range (raw : ℚ) (mode : TremoloMode) :
    0 ≤ tremoloDepthScaled raw mode ∧
    tremoloDepthScaled raw mode ≤ tremoloDepthBound mode := by
  have h0 : 0 ≤ fclamp raw 0 1 := le_min (le_max_right raw 0) (by norm_num)
  have h1 : fclamp raw 0 1 ≤ 1 := min_le_right _ 1
  cases mode with
  | sine =>
    refine ⟨mul_nonneg h0 (by norm_num), ?_⟩
    calc fclamp raw 0 1 * (1/2) ≤ 1 * (1/2) := by
          exact mul_le_mul_of_nonneg_right h1 (by norm_num)
      _ = tremoloDepthBound TremoloMode.sine := by norm_num [tremoloDepthBound]
  | harmonic =>
    refine ⟨mul_nonneg h0 (by norm_num), ?_⟩
    calc fclamp raw 0 1 * (5/4) ≤ 1 * (5/4) := by
          exact mul_le_mul_of_nonneg_right h1 (by norm_num)
      _ = tremoloDepthBound TremoloMode.harmonic := by norm_num [tremoloDepthBound]
  | square =>
    refine ⟨mul_nonneg h0 (by norm_num), ?_⟩
    calc fclamp raw 0 1 * (1/2) ≤ 1 * (1/2) := by
          exact mul_le_mul_of_nonneg_right h1 (by norm_num)
      _ = tremoloDepthBound TremoloMode.square := by norm_num [tremoloDepthBound]

/-! Per-sample delay stage of the audio callback. -/

/-- DELAY_WET_MIX_ATTENUATION = 0.333f. -/
def DELAY_WET_MIX_ATTENUATION : ℚ := 333/1000

/-- DELAY_DRY_WET_PERCENT_MAX = 100.0f. -/
def DELAY_DRY_WET_PERCENT_MAX : ℚ := 100

/-- Contract-level model of the external daisysp DelayLine collaborator: a
circular buffer with a write position and a currently set (fractional)
delay; Read returns the sample at the delayed position, Write stores at
the write position and advances it.  The interpolation details of the
library are outside the repository and none of the verified properties
depend on them. -/
structure DelayLine where
  buffer : List ℚ
  write_pos : ℕ
  delay : ℚ
deriving DecidableEq, Repr

/-- DelayLine::SetDelay. -/
def DelayLine.setDelay (d : DelayLine) (t : ℚ) : DelayLine := { d with delay := t }

/-- DelayLine::Read at the currently set delay. -/
def DelayLine.read (d : DelayLine) : ℚ :=
  d.buffer.getD ((d.write_pos + (⌊d.delay⌋).toNat) % d.buffer.length) 0

/-- DelayLine::Write at the write position, then advance. -/
def DelayLine.write (d : DelayLine) (v : ℚ) : DelayLine :=
  { d with buffer := d.buffer.set (d.write_pos % d.buffer.length) v,
           write_pos := (d.write_pos + 1) % max d.buffer.length 1 }

/-- The Delay struct of the control file: a delay line plus smoothed delay
time and feedback gain. -/
structure Delay where
  del : DelayLine
  current_delay : ℚ
  delay_target : ℚ
  feedback : ℚ
deriving DecidableEq, Repr

/-- Delay::Process: smooth the delay time toward the target (fonepole with
coefficient 0.0002), set it on the line, read, write back
feedback * read + in, and return the read value. -/
def Delay.process (dl : Delay) (inp : ℚ) : ℚ × Delay :=
  let cd := fonepole dl.current_delay dl.delay_target (2/10000)
  let d1 := dl.del.setDelay cd
  let r := d1.read
  let d2 := d1.write (dl.feedback * r + inp)
  (r, { dl with del := d2, current_delay := cd })

/-- Per-sample delay stage of the audio callback: when the delay is not
bypassed, both channels run Delay::Process and the output is the dry/wet
blend with the wet attenuation constant and the dry makeup gain; when
bypassed, nothing at all happens to the samples or to the delay state. -/
def delaySection (bypass_delay : Bool) (delay_drywet : Int)
    (delay_make_up_gain sL sR : ℚ) (dL dR : Delay) :
    (ℚ × ℚ) × Delay × Delay :=
  if bypass_delay = false then
    let fdrywet := (delay_drywet : ℚ) / DELAY_DRY_WET_PERCENT_MAX
    let pL := dL.process sL
    let pR := dR.process sR
    let mixL := pL.1
    let mixR := pR.1
    ((fdrywet * mixL * DELAY_WET_MIX_ATTENUATION +
        (1 - fdrywet) * sL * delay_make_up_gain,
      fdrywet * mixR * DELAY_WET_MIX_ATTENUATION +
        (1 - fdrywet) * sR * delay_make_up_gain),
     pL.2, pR.2)
  else
    ((sL, sR), dL, dR)

/-- C4 counterexample: processing one sample with the delay bypassed
leaves the delay line exactly as it was, whereas the claimed recirculation
(one Delay::Process step writing feedback * read back into the line) would
change it: with buffer [5, 2], write position 0, delay 1 and feedback 1/2,
the recirculating step would store 1 at position 0. -/
theorem C4_counterexample :
    (delaySection true 50 1 0 0
        ⟨⟨[5, 2], 0, 1⟩, 1, 1, 1/2⟩ ⟨⟨[5, 2], 0, 1⟩, 1, 1, 1/2⟩).2.1 =
      ⟨⟨[5, 2], 0, 1⟩, 1, 1, 1/2⟩ ∧
    ((⟨⟨[5, 2], 0, 1⟩, 1, 1, 1/2⟩ : Delay).process 0).2 ≠
      ⟨⟨[5, 2], 0, 1⟩, 1, 1, 1/2⟩ := by
  constructor
  · rfl
  · intro h
    have hbuf : (((⟨⟨[5, 2], 0, 1⟩, 1, 1, 1/2⟩ : Delay).process 0).2).del.buffer =
        [1, 2] := by
      norm_num [Delay.process, DelayLine.setDelay, DelayLine.read,
        DelayLine.write, fonepole]
    rw [h] at hbuf
    have hg := congrArg (fun l => l.getD 0 0) hbuf
    simp at hg

/-- C4 (amended): when the delay effect is bypassed, the per-sample delay
processing is skipped entirely: the samples pass through unchanged and the
delay lines are neither read nor written, so their state (and any
recirculating feedback) is frozen until the effect is re-enabled. -/
theorem C4_delay_bypass_freezes (delay_drywet : Int)
    (delay_make_up_gain sL sR : ℚ) (dL dR : Delay) :
    delaySection true delay_drywet delay_make_up_gain sL sR dL dR =
      ((sL, sR), dL, dR) := rfl

/-! Per-sample tremolo stage of the audio callback. -/

/-- Modelled from the spec: a concrete stand-in for the anti-aliased LFO
waveform synthesis of flick_oscillator.h, which is not among the sources
here; none of the verified properties depend on the wave shape. -/
def lfoWave (phase : ℚ) : ℚ :=
  if phase < 1/2 then 4 * phase - 1 else 3 - 4 * phase

/-- Wrap a phase into [0, 1). -/
def wrapPhase (p : ℚ) : ℚ := p - ⌊p⌋

/-- Modelled from the spec: FlickOscillator (flick_oscillator.h is not
among the sources here) as a phase-accumulator LFO whose Process() emits
amp * wave(phase) and then advances the phase by freq / sample_rate,
wrapping into [0, 1). -/
structure FlickOscillator where
  phase : ℚ
  freq : ℚ
  amp : ℚ
  sample_rate : ℚ
deriving DecidableEq, Repr

/-- FlickOscillator::Process: emit the current sample and advance the
phase accumulator by freq / sample_rate. -/
def FlickOscillator.process (o : FlickOscillator) : ℚ × FlickOscillator :=
  (o.amp * lfoWave o.phase,
   { o with phase := wrapPhase (o.phase + o.freq / o.sample_rate) })

/-- Per-sample tremolo stage of the audio callback for the standard
(sine/square) path.  The harmonic branch of the source calls
osc.Process() through the same single call site before branching on the
mode, so the oscillator-state behaviour is identical in all three modes:
the oscillator advances exactly when bypass_trem is false. -/
def tremSection (bypass_trem : Bool) (dc_offset trem_make_up_gain sL sR : ℚ)
    (o : FlickOscillator) : (ℚ × ℚ) × FlickOscillator :=
  if bypass_trem = false then
    let p := o.process
    let trem_val := dc_offset + p.1
    ((sL * trem_val * trem_make_up_gain, sR * trem_val * trem_make_up_gain),
     p.2)
  else
    ((sL, sR), o)

/-- C5 counterexample: with the tremolo bypassed, one processed sample
leaves the oscillator (in particular its phase) exactly as it was, whereas
the claim requires the phase to advance on every sample: from phase 0 at
1 Hz and 48 kHz one Process() call moves the phase to 1/48000. -/
theorem C5_counterexample :
    (tremSection true 1 1 0 0 ⟨0, 1, 1/2, 48000⟩).2 =
      (⟨0, 1, 1/2, 48000⟩ : FlickOscillator) ∧
    ((⟨0, 1, 1/2, 48000⟩ : FlickOscillator).process).2.phase ≠
      (⟨0, 1, 1/2, 48000⟩ : FlickOscillator).phase := by
  constructor
  · rfl
  · have hfloor : ⌊(0:ℚ) + 1 / 48000⌋ = 0 := by
      rw [Int.floor_eq_zero_iff, Set.mem_Ico]
      refine ⟨by norm_num, ?_⟩
      rw [zero_add, one_div]
      exact inv_lt_one_of_one_lt₀ (by norm_num)
    have h : ((⟨0, 1, 1/2, 48000⟩ : FlickOscillator).process).2.phase =
        ((0:ℚ) + 1 / 48000) - (⌊((0:ℚ) + 1 / 48000)⌋ : ℤ) := rfl
    rw [h, hfloor]
    norm_num

/-- C5 (amended): when the tremolo effect is bypassed, the amplitude
modulation is skipped and the LFO oscillator does not run: the samples
pass through unchanged and the oscillator phase is frozen (it does not
advance) until the effect is re-enabled. -/
theorem C5_tremolo_bypass_freezes_lfo (dc_offset trem_make_up_gain sL sR : ℚ)
    (o : FlickOscillator) :
    tremSection true dc_offset trem_make_up_gain sL sR o = ((sL, sR), o) := rfl

/-! Versioned persistent settings: load, validate, save. -/

/-- SETTINGS_VERSION = 5 (current schema constant). -/
def SETTINGS_VERSION : Int := 5

/-- MonoStereoMode: mono in mono out / mono in stereo out / stereo in
stereo out, with the integer values MS_MODE_MIMO = 0, MS_MODE_MISO = 1,
MS_MODE_SISO = 2 used in the persisted record. -/
inductive MonoStereoMode
  | mimo
  | miso
  | siso
deriving DecidableEq, Repr

/-- Integer value of a MonoStereoMode as persisted. -/
def MonoStereoMode.toInt : MonoStereoMode → Int
  | .mimo => 0
  | .miso => 1
  | .siso => 2

/-- Cast of an in-range integer back to a MonoStereoMode, as the C++
static_cast does on the validated field. -/
def monoStereoModeOfInt (i : Int) : MonoStereoMode :=
  if i = 0 then .mimo else if i = 1 then .miso else .siso

/-- TremDelMakeUpGain: MAKEUP_GAIN_NONE = 0, MAKEUP_GAIN_NORMAL = 1,
MAKEUP_GAIN_HEAVY = 2. -/
inductive TremDelMakeUpGain
  | gainNone
  | gainNormal
  | gainHeavy
deriving DecidableEq, Repr

/-- Integer value of a TremDelMakeUpGain as persisted. -/
def TremDelMakeUpGain.toInt : TremDelMakeUpGain → Int
  | .gainNone => 0
  | .gainNormal => 1
  | .gainHeavy => 2

/-- Cast of an in-range integer back to a TremDelMakeUpGain. -/
def makeupGainOfInt (i : Int) : TremDelMakeUpGain :=
  if i = 0 then .gainNone else if i = 1 then .gainNormal else .gainHeavy

/-- The persisted Settings record: schema version, eight reverb fields,
mono-stereo mode, makeup-gain mode and the three bypass flags.  The two
enumerated fields are stored as raw integers, so an out-of-range value can
appear in a stale record. -/
structure Settings where
  version : Int
  decay : ℚ
  diffusion : ℚ
  input_cutoff_freq : ℚ
  tank_cutoff_freq : ℚ
  tank_mod_speed : ℚ
  tank_mod_depth : ℚ
  tank_mod_shape : ℚ
  pre_delay : ℚ
  mono_stereo_mode : Int
  makeup_gain_mode : Int
  bypass_reverb : Bool
  bypass_delay : Bool
  bypass_tremolo : Bool
deriving DecidableEq, Repr

/-- The in-memory globals that loadSettings writes and the save functions
read: the plate reverb parameters, the typed mono-stereo and makeup-gain
modes, and the three bypass flags. -/
structure SettingsGlobals where
  plate_decay : ℚ
  plate_tank_diffusion : ℚ
  plate_input_damp_high : ℚ
  plate_tank_damp_high : ℚ
  plate_tank_mod_speed : ℚ
  plate_tank_mod_depth : ℚ
  plate_tank_mod_shape : ℚ
  plate_pre_delay : ℚ
  mono_stereo_mode : MonoStereoMode
  current_makeup_gain : TremDelMakeUpGain
  bypass_verb : Bool
  bypass_delay : Bool
  bypass_trem : Bool
deriving DecidableEq, Repr

/-- The compiled-in default record built in main() from the initial global
values and handed to PersistentStorage::Init: current version, the initial
plate parameters, MS_MODE_MIMO, MAKEUP_GAIN_NORMAL, and all three effects
bypassed. -/
def defaultSettings : Settings :=
  { version := SETTINGS_VERSION
    decay := 8/10
    diffusion := 85/100
    input_cutoff_freq := 725/100
    tank_cutoff_freq := 725/100
    tank_mod_speed := 1/10
    tank_mod_depth := 1/10
    tank_mod_shape := 25/100
    pre_delay := 0
    mono_stereo_mode := 0
    makeup_gain_mode := 1
    bypass_reverb := true
    bypass_delay := true
    bypass_tremolo := true }

/-- The field-loading body of loadSettings: copy the eight reverb fields,
validate the mono-stereo mode (out of range [0, 2] falls back to
MS_MODE_MIMO) and the makeup gain (out of range [0, 2] falls back to
MAKEUP_GAIN_NORMAL), and copy the three bypass flags. -/
def applyLoadFields (s : Settings) : SettingsGlobals :=
  { plate_decay := s.decay
    plate_tank_diffusion := s.diffusion
    plate_input_damp_high := s.input_cutoff_freq
    plate_tank_damp_high := s.tank_cutoff_freq
    plate_tank_mod_speed := s.tank_mod_speed
    plate_tank_mod_depth := s.tank_mod_depth
    plate_tank_mod_shape := s.tank_mod_shape
    plate_pre_delay := s.pre_delay
    mono_stereo_mode :=
      if s.mono_stereo_mode < 0 ∨ 2 < s.mono_stereo_mode then .mimo
      else monoStereoModeOfInt s.mono_stereo_mode
    current_makeup_gain :=
      if s.makeup_gain_mode < 0 ∨ 2 < s.makeup_gain_mode then .gainNormal
      else makeupGainOfInt s.makeup_gain_mode
    bypass_verb := s.bypass_reverb
    bypass_delay := s.bypass_delay
    bypass_trem := s.bypass_tremolo }

/-- loadSettings: on a version mismatch the C++ calls RestoreDefaults()
(the stored record becomes defaultSettings, whose version field equals
SETTINGS_VERSION) and calls itself again, so the recursion unfolds to
loading the default record; on a version match it loads the stored
record. -/
def loadSettings (stored : Settings) : SettingsGlobals :=
  if stored.version ≠ SETTINGS_VERSION then applyLoadFields defaultSettings
  else applyLoadFields stored

/-- saveSettings: write the current version constant and the eight reverb
fields from the globals into the record, leaving every other field of the
record untouched. -/
def saveSettings (g : SettingsGlobals) (s : Settings) : Settings :=
  { s with
      version := SETTINGS_VERSION
      decay := g.plate_decay
      diffusion := g.plate_tank_diffusion
      input_cutoff_freq := g.plate_input_damp_high
      tank_cutoff_freq := g.plate_tank_damp_high
      tank_mod_speed := g.plate_tank_mod_speed
      tank_mod_depth := g.plate_tank_mod_depth
      tank_mod_shape := g.plate_tank_mod_shape
      pre_delay := g.plate_pre_delay }

/-- saveMonoStereoSettings: write the typed mono-stereo mode and makeup
gain into the record. -/
def saveMonoStereoSettings (g : SettingsGlobals) (s : Settings) : Settings :=
  { s with
      mono_stereo_mode := g.mono_stereo_mode.toInt
      makeup_gain_mode := g.current_makeup_gain.toInt }

/-- saveBypassStates: write the three bypass flags into the record. -/
def saveBypassStates (g : SettingsGlobals) (s : Settings) : Settings :=
  { s with
      bypass_reverb := g.bypass_verb
      bypass_tremolo := g.bypass_trem
      bypass_delay := g.bypass_delay }

/-- A full save of every persisted field, as performed by the three save
functions together. -/
def fullSave (g : SettingsGlobals) (s : Settings) : Settings :=
  saveBypassStates g (saveMonoStereoSettings g (saveSettings g s))

/-- C6: versioned settings load.  If the persisted version differs from
SETTINGS_VERSION the whole record is discarded and every global is loaded
from the compiled-in defaults, independent of the old record; if the
version matches, a full save followed by a load reproduces every field of
the in-memory state. -/
theorem C6_versioned_settings_load (s : Settings) (g : SettingsGlobals)
    (s0 : Settings) (hv : s.version ≠ SETTINGS_VERSION) :
    loadSettings s = applyLoadFields defaultSettings ∧
    loadSettings (fullSave g s0) = g := by
  constructor
  · simp [loadSettings, hv]
  · cases g with
    | mk pd ptd pidh ptdh pms pmd psh ppd ms mg bv bd bt =>
      cases ms <;> cases mg <;>
        simp [loadSettings, applyLoadFields, fullSave, saveSettings,
          saveMonoStereoSettings, saveBypassStates, SETTINGS_VERSION,
          MonoStereoMode.toInt, TremDelMakeUpGain.toInt,
          monoStereoModeOfInt, makeupGainOfInt]

/-- C6 witness: a stale record under version 4 loads exactly the defaults,
and a concrete full save under the current version round-trips. -/
theorem C6_versioned_settings_load_witness :
    ({ defaultSettings with version := 4 } : Settings).version ≠
        SETTINGS_VERSION ∧
    loadSettings { defaultSettings with version := 4 } =
      applyLoadFields defaultSettings ∧
    loadSettings (fullSave
        { plate_decay := 1/2, plate_tank_diffusion := 3/10,
          plate_input_damp_high := 9, plate_tank_damp_high := 8,
          plate_tank_mod_speed := 1/4, plate_tank_mod_depth := 1/2,
          plate_tank_mod_shape := 1/10, plate_pre_delay := 1/8,
          mono_stereo_mode := .siso, current_makeup_gain := .gainHeavy,
          bypass_verb := false, bypass_delay := true, bypass_trem := false }
        defaultSettings) =
      { plate_decay := 1/2, plate_tank_diffusion := 3/10,
        plate_input_damp_high := 9, plate_tank_damp_high := 8,
        plate_tank_mod_speed := 1/4, plate_tank_mod_depth := 1/2,
        plate_tank_mod_shape := 1/10, plate_pre_delay := 1/8,
        mono_stereo_mode := .siso, current_makeup_gain := .gainHeavy,
        bypass_verb := false, bypass_delay := true, bypass_trem := false } := by
  have hv : ({ defaultSettings with version := 4 } : Settings).version ≠
      SETTINGS_VERSION := by
    simp [defaultSettings, SETTINGS_VERSION]
  have h := C6_versioned_settings_load { defaultSettings with version := 4 }
    { plate_decay := 1/2, plate_tank_diffusion := 3/10,
      plate_input_damp_high := 9, plate_tank_damp_high := 8,
      plate_tank_mod_speed := 1/4, plate_tank_mod_depth := 1/2,
      plate_tank_mod_shape := 1/10, plate_pre_delay := 1/8,
      mono_stereo_mode := .siso, current_makeup_gain := .gainHeavy,
      bypass_verb := false, bypass_delay := true, bypass_trem := false }
    defaultSettings hv
  exact ⟨hv, h.1, h.2⟩

/-- C8: out-of-range enumerated fields are not fatal on load.  Under a
matching version, a persisted mono-stereo index outside [MS_MODE_MIMO,
MS_MODE_SISO] loads as the safe default MS_MODE_MIMO, an out-of-range
makeup-gain value loads as MAKEUP_GAIN_NORMAL, and the remaining fields of
the record are still loaded normally. -/
theorem C8_out_of_range_enums_safe (s : Settings)
    (hv : s.version = SETTINGS_VERSION)
    (hms : s.mono_stereo_mode < 0 ∨ 2 < s.mono_stereo_mode)
    (hmg : s.makeup_gain_mode < 0 ∨ 2 < s.makeup_gain_mode) :
    (loadSettings s).mono_stereo_mode = MonoStereoMode.mimo ∧
    (loadSettings s).current_makeup_gain = TremDelMakeUpGain.gainNormal ∧
    (loadSettings s).plate_decay = s.decay ∧
    (loadSettings s).bypass_verb = s.bypass_reverb := by
  have hload : loadSettings s = applyLoadFields s := by
    simp [loadSettings, hv]
  rw [hload]
  refine ⟨?_, ?_, rfl, rfl⟩
  · simp [applyLoadFields, hms]
  · simp [applyLoadFields, hmg]

/-- C8 witness: a version-5 record with mono-stereo index 7 and makeup
gain -3 loads as MIMO and MAKEUP_GAIN_NORMAL while the rest of the record
still loads. -/
theorem C8_out_of_range_enums_safe_witness :
    ({ defaultSettings with mono_stereo_mode := 7, makeup_gain_mode := -3 } :
        Settings).version = SETTINGS_VERSION ∧
    (((7:Int) < 0 ∨ (2:Int) < 7) ∧ ((-3:Int) < 0 ∨ (2:Int) < -3)) ∧
    (loadSettings
        { defaultSettings with mono_stereo_mode := 7, makeup_gain_mode := -3
          }).mono_stereo_mode = MonoStereoMode.mimo ∧
    (loadSettings
        { defaultSettings with mono_stereo_mode := 7, makeup_gain_mode := -3
          }).current_makeup_gain =
      TremDelMakeUpGain.gainNormal := by
  have h := C8_out_of_range_enums_safe
    { defaultSettings with mono_stereo_mode := 7, makeup_gain_mode := -3 }
    rfl (Or.inr (by norm_num)) (Or.inl (by norm_num))
  exact ⟨rfl, ⟨Or.inr (by norm_num), Or.inl (by norm_num)⟩, h.1, h.2.1⟩

/-- C10: committing reverb edits via saveSettings writes exactly the
version constant and the eight reverb fields from the in-memory state, and
leaves the mono-stereo mode, the makeup-gain mode and the three bypass
flags of the record unchanged. -/
theorem C10_saveSettings_frame (g : SettingsGlobals) (s : Settings) :
    (saveSettings g s).version = SETTINGS_VERSION ∧
    (saveSettings g s).decay = g.plate_decay ∧
    (saveSettings g s).diffusion = g.plate_tank_diffusion ∧
    (saveSettings g s).input_cutoff_freq = g.plate_input_damp_high ∧
    (saveSettings g s).tank_cutoff_freq = g.plate_tank_damp_high ∧
    (saveSettings g s).tank_mod_speed = g.plate_tank_mod_speed ∧
    (saveSettings g s).tank_mod_depth = g.plate_tank_mod_depth ∧
    (saveSettings g s).tank_mod_shape = g.plate_tank_mod_shape ∧
    (saveSettings g s).pre_delay = g.plate_pre_delay ∧
    (saveSettings g s).mono_stereo_mode = s.mono_stereo_mode ∧
    (saveSettings g s).makeup_gain_mode = s.makeup_gain_mode ∧
    (saveSettings g s).bypass_reverb = s.bypass_reverb ∧
    (saveSettings g s).bypass_delay = s.bypass_delay ∧
    (saveSettings g s).bypass_tremolo = s.bypass_tremolo :=
  ⟨rfl, rfl, rfl, rfl, rfl, rfl, rfl, rfl, rfl, rfl, rfl, rfl, rfl, rfl⟩

/-! Tap tempo mode: entry, control flags, and the block-rate refresh. -/

/-- The control-flag decision of enterTapTempoMode, on the two activity
bits delay_active = not bypass_delay and tremolo_active = not bypass_trem:
neither or both active drives both, one active drives only that one. -/
def tapTempoControlFlags (delay_active tremolo_active : Bool) : Bool × Bool :=
  match delay_active, tremolo_active with
  | false, false => (true, true)
  | true, true => (true, true)
  | true, false => (true, false)
  | false, true => (false, true)

/-- enterTapTempoMode: set the active flag and last-tap time, derive the
control flags from which effects are currently un-bypassed, capture the
two knob takeovers (KNOB_4 delay time, KNOB_2 tremolo speed), and change
pedal_mode last. -/
def enterTapTempoMode (st : ControlState) (now : ℕ) (knob4 knob2 : ℚ) :
    ControlState :=
  let flags := tapTempoControlFlags (!st.bypass_delay) (!st.bypass_trem)
  { st with
      tap_tempo_active := true
      tap_tempo_last_tap_time := now
      tap_tempo_controls_delay := flags.1
      tap_tempo_controls_tremolo := flags.2
      tap_tempo_delay_knob_takeover :=
        st.tap_tempo_delay_knob_takeover.capture knob4
      tap_tempo_tremolo_knob_takeover :=
        st.tap_tempo_tremolo_knob_takeover.capture knob2
      pedal_mode := .tapTempo }

/-- Subdivision multiplier from the position of toggle switch 3 through
kDelaySubdivisionMap: 0 (UP/RIGHT) is dotted eighth 0.75, 1 (MIDDLE) is
the quarter note 1.0, 2 (DOWN/LEFT) is the quarter triplet 2/3. -/
def subdivisionMultiplier : Fin 3 → ℚ
  | 0 => 75/100
  | 1 => 1
  | 2 => 2/3

/-- applyDelaySubdivisionAndSetTargets: multiply the master delay time by
the subdivision from switch 3, clamp to [20 ms in samples, MAX_DELAY], and
set both channel delay targets. -/
def applyDelaySubdivisionAndSetTargets (st : ControlState) (sw3 : Fin 3)
    (masterDelaySamples : ℚ) : ControlState :=
  let final_delay_time := fclamp (masterDelaySamples * subdivisionMultiplier sw3)
    TAP_TEMPO_SAMPLES_MIN (MAX_DELAY : ℚ)
  { st with delayL_target := final_delay_time, delayR_target := final_delay_time }

/-- The parameter part of the tap-tempo branch of the block-rate refresh
in the audio callback: always apply the tap delay time (with subdivision)
to the delay targets, and set the oscillator frequency from the tap
tremolo frequency only when tap tempo controls the tremolo. -/
def tapTempoModeRefresh (st : ControlState) (sw3 : Fin 3) : ControlState :=
  let st1 := applyDelaySubdivisionAndSetTargets st sw3 st.tap_tempo_delay_samples
  if st1.tap_tempo_controls_tremolo then
    { st1 with osc_freq := st1.tap_tempo_tremolo_freq_hz }
  else st1

/-- handleTapTempoTap changes neither the oscillator frequency, the
control flags, nor the delay targets; it only updates the tap-tempo
variables. -/
lemma handleTapTempoTap_untouched (u : ControlState) (t : ℕ) :
    (handleTapTempoTap u t).osc_freq = u.osc_freq ∧
    (handleTapTempoTap u t).tap_tempo_controls_tremolo =
      u.tap_tempo_controls_tremolo ∧
    (handleTapTempoTap u t).tap_tempo_controls_delay =
      u.tap_tempo_controls_delay := by
  simp only [handleTapTempoTap]
  split
  · split
    · exact ⟨rfl, rfl, rfl⟩
    · exact ⟨rfl, rfl, rfl⟩
  · exact ⟨rfl, rfl, rfl⟩

/-- C7: entering tap tempo from Normal with the delay active and the
tremolo bypassed sets controls-delay true and controls-tremolo false, and
from then on each tap followed by a block refresh updates the delay
targets from the tap delay time while the oscillator frequency (hence the
tremolo rate) is never altered and the flags stay as set. -/
theorem C7_tap_tempo_delay_only (st : ControlState) (now : ℕ) (k4 k2 : ℚ)
    (hd : st.bypass_delay = false) (ht : st.bypass_trem = true) :
    (enterTapTempoMode st now k4 k2).tap_tempo_controls_delay = true ∧
    (enterTapTempoMode st now k4 k2).tap_tempo_controls_tremolo = false ∧
    (∀ u : ControlState, u.tap_tempo_controls_tremolo = false → ∀ t : ℕ,
      ∀ sw3 : Fin 3,
      (tapTempoModeRefresh (handleTapTempoTap u t) sw3).osc_freq =
        u.osc_freq ∧
      (tapTempoModeRefresh (handleTapTempoTap u t) sw3).tap_tempo_controls_tremolo
        = false ∧
      (tapTempoModeRefresh (handleTapTempoTap u t) sw3).delayL_target =
        fclamp ((handleTapTempoTap u t).tap_tempo_delay_samples *
          subdivisionMultiplier sw3) TAP_TEMPO_SAMPLES_MIN (MAX_DELAY : ℚ) ∧
      (tapTempoModeRefresh (handleTapTempoTap u t) sw3).delayR_target =
        fclamp ((handleTapTempoTap u t).tap_tempo_delay_samples *
          subdivisionMultiplier sw3) TAP_TEMPO_SAMPLES_MIN (MAX_DELAY : ℚ)) := by
  refine ⟨?_, ?_, ?_⟩
  · simp [enterTapTempoMode, hd, ht, tapTempoControlFlags]
  · simp [enterTapTempoMode, hd, ht, tapTempoControlFlags]
  · intro u hu t sw3
    have hup := handleTapTempoTap_untouched u t
    have hct : (handleTapTempoTap u t).tap_tempo_controls_tremolo = false := by
      rw [hup.2.1, hu]
    have hbranch :
        (applyDelaySubdivisionAndSetTargets (handleTapTempoTap u t) sw3
          (handleTapTempoTap u t).tap_tempo_delay_samples).tap_tempo_controls_tremolo
          = false := hct
    refine ⟨?_, ?_, ?_, ?_⟩ <;>
      simp [tapTempoModeRefresh, applyDelaySubdivisionAndSetTargets, hbranch,
        hct, hup.1]

/-- C7 witness: the theorem instantiated at a concrete state with the
delay un-bypassed and the tremolo bypassed, including one concrete
tap-and-refresh run showing the oscillator frequency untouched. -/
theorem C7_tap_tempo_delay_only_witness :
    ({ pedal_mode := .normal, bypass_verb := true, bypass_delay := false,
        bypass_trem := true, tap_tempo_active := false,
        tap_tempo_last_tap_time := 0, tap_tempo_interval_ms := 0,
        tap_tempo_delay_samples := 24000, tap_tempo_controls_delay := false,
        tap_tempo_tremolo_freq_hz := 2, tap_tempo_controls_tremolo := false,
        tap_tempo_delay_knob_takeover := ⟨0, false⟩,
        tap_tempo_tremolo_knob_takeover := ⟨0, false⟩,
        reverb_edit_wet_amount_knob := ⟨0, false⟩,
        reverb_edit_pre_delay_knob := ⟨0, false⟩,
        reverb_edit_decay_knob := ⟨0, false⟩,
        reverb_edit_diffusion_knob := ⟨0, false⟩,
        reverb_edit_input_cut_knob := ⟨0, false⟩,
        reverb_edit_tank_cut_knob := ⟨0, false⟩,
        reverb_edit_mod_speed_switch := ⟨0, false⟩,
        reverb_edit_mod_depth_switch := ⟨0, false⟩,
        reverb_edit_mod_shape_switch := ⟨0, false⟩,
        master_delay_time_samples := 24000, osc_freq := 7,
        delayL_target := 0, delayR_target := 0 } : ControlState).bypass_delay =
      false ∧
    ({ pedal_mode := .normal, bypass_verb := true, bypass_delay := false,
        bypass_trem := true, tap_tempo_active := false,
        tap_tempo_last_tap_time := 0, tap_tempo_interval_ms := 0,
        tap_tempo_delay_samples := 24000, tap_tempo_controls_delay := false,
        tap_tempo_tremolo_freq_hz := 2, tap_tempo_controls_tremolo := false,
        tap_tempo_delay_knob_takeover := ⟨0, false⟩,
        tap_tempo_tremolo_knob_takeover := ⟨0, false⟩,
        reverb_edit_wet_amount_knob := ⟨0, false⟩,
        reverb_edit_pre_delay_knob := ⟨0, false⟩,
        reverb_edit_decay_knob := ⟨0, false⟩,
        reverb_edit_diffusion_knob := ⟨0, false⟩,
        reverb_edit_input_cut_knob := ⟨0, false⟩,
        reverb_edit_tank_cut_knob := ⟨0, false⟩,
        reverb_edit_mod_speed_switch := ⟨0, false⟩,
        reverb_edit_mod_depth_switch := ⟨0, false⟩,
        reverb_edit_mod_shape_switch := ⟨0, false⟩,
        master_delay_time_samples := 24000, osc_freq := 7,
        delayL_target := 0, delayR_target := 0 } : ControlState).bypass_trem =
      true ∧
    (enterTapTempoMode
        { pedal_mode := .normal, bypass_verb := true, bypass_delay := false,
          bypass_trem := true, tap_tempo_active := false,
          tap_tempo_last_tap_time := 0, tap_tempo_interval_ms := 0,
          tap_tempo_delay_samples := 24000, tap_tempo_controls_delay := false,
          tap_tempo_tremolo_freq_hz := 2, tap_tempo_controls_tremolo := false,
          tap_tempo_delay_knob_takeover := ⟨0, false⟩,
          tap_tempo_tremolo_knob_takeover := ⟨0, false⟩,
          reverb_edit_wet_amount_knob := ⟨0, false⟩,
          reverb_edit_pre_delay_knob := ⟨0, false⟩,
          reverb_edit_decay_knob := ⟨0, false⟩,
          reverb_edit_diffusion_knob := ⟨0, false⟩,
          reverb_edit_input_cut_knob := ⟨0, false⟩,
          reverb_edit_tank_cut_knob := ⟨0, false⟩,
          reverb_edit_mod_speed_switch := ⟨0, false⟩,
          reverb_edit_mod_depth_switch := ⟨0, false⟩,
          reverb_edit_mod_shape_switch := ⟨0, false⟩,
          master_delay_time_samples := 24000, osc_freq := 7,
          delayL_target := 0, delayR_target := 0 } 1000 (1/2)
        (1/2)).tap_tempo_controls_delay = true ∧
    (enterTapTempoMode
        { pedal_mode := .normal, bypass_verb := true, bypass_delay := false,
          bypass_trem := true, tap_tempo_active := false,
          tap_tempo_last_tap_time := 0, tap_tempo_interval_ms := 0,
          tap_tempo_delay_samples := 24000, tap_tempo_controls_delay := false,
          tap_tempo_tremolo_freq_hz := 2, tap_tempo_controls_tremolo := false,
          tap_tempo_delay_knob_takeover := ⟨0, false⟩,
          tap_tempo_tremolo_knob_takeover := ⟨0, false⟩,
          reverb_edit_wet_amount_knob := ⟨0, false⟩,
          reverb_edit_pre_delay_knob := ⟨0, false⟩,
          reverb_edit_decay_knob := ⟨0, false⟩,
          reverb_edit_diffusion_knob := ⟨0, false⟩,
          reverb_edit_input_cut_knob := ⟨0, false⟩,
          reverb_edit_tank_cut_knob := ⟨0, false⟩,
          reverb_edit_mod_speed_switch := ⟨0, false⟩,
          reverb_edit_mod_depth_switch := ⟨0, false⟩,
          reverb_edit_mod_shape_switch := ⟨0, false⟩,
          master_delay_time_samples := 24000, osc_freq := 7,
          delayL_target := 0, delayR_target := 0 } 1000 (1/2)
        (1/2)).tap_tempo_controls_tremolo = false := by
  have h := C7_tap_tempo_delay_only
    { pedal_mode := .normal, bypass_verb := true, bypass_delay := false,
      bypass_trem := true, tap_tempo_active := false,
      tap_tempo_last_tap_time := 0, tap_tempo_interval_ms := 0,
      tap_tempo_delay_samples := 24000, tap_tempo_controls_delay := false,
      tap_tempo_tremolo_freq_hz := 2, tap_tempo_controls_tremolo := false,
      tap_tempo_delay_knob_takeover := ⟨0, false⟩,
      tap_tempo_tremolo_knob_takeover := ⟨0, false⟩,
      reverb_edit_wet_amount_knob := ⟨0, false⟩,
      reverb_edit_pre_delay_knob := ⟨0, false⟩,
      reverb_edit_decay_knob := ⟨0, false⟩,
      reverb_edit_diffusion_knob := ⟨0, false⟩,
      reverb_edit_input_cut_knob := ⟨0, false⟩,
      reverb_edit_tank_cut_knob := ⟨0, false⟩,
      reverb_edit_mod_speed_switch := ⟨0, false⟩,
      reverb_edit_mod_depth_switch := ⟨0, false⟩,
      reverb_edit_mod_shape_switch := ⟨0, false⟩,
      master_delay_time_samples := 24000, osc_freq := 7,
      delayL_target := 0, delayR_target := 0 } 1000 (1/2) (1/2) rfl rfl
  exact ⟨rfl, rfl, h.1, h.2.1⟩

/-! Ordering of mode-entry initialization: the source writes all
mode-specific state (takeover captures, flags) and assigns pedal_mode as
its very last statement.  The two entry paths are modelled as explicit
lists of atomic state updates, in source order, so that every prefix of
the update sequence is a state some interleaved reader could observe. -/

/-- Run a list of state updates in order. -/
def runSteps (steps : List (ControlState → ControlState)) (st : ControlState) :
    ControlState :=
  steps.foldl (fun s f => f s) st

/-- The statement sequence of handleLongPress on footswitch 1 (enter
reverb edit mode), one atomic global write per step, in source order:
un-bypass the reverb, capture the six knob takeovers and the three switch
change detectors, and change pedal_mode last.  The kn and swn arguments
are the raw knob values and switch positions read by the captures. -/
def enterEditReverbSteps (k1 k2 k3 k4 k5 k6 : ℚ) (sw1 sw2 sw3 : Int) :
    List (ControlState → ControlState) :=
  [ fun st => { st with bypass_verb := false },
    fun st => { st with reverb_edit_wet_amount_knob :=
      st.reverb_edit_wet_amount_knob.capture k1 },
    fun st => { st with reverb_edit_pre_delay_knob :=
      st.reverb_edit_pre_delay_knob.capture k2 },
    fun st => { st with reverb_edit_decay_knob :=
      st.reverb_edit_decay_knob.capture k3 },
    fun st => { st with reverb_edit_diffusion_knob :=
      st.reverb_edit_diffusion_knob.capture k4 },
    fun st => { st with reverb_edit_input_cut_knob :=
      st.reverb_edit_input_cut_knob.capture k5 },
    fun st => { st with reverb_edit_tank_cut_knob :=
      st.reverb_edit_tank_cut_knob.capture k6 },
    fun st => { st with reverb_edit_mod_speed_switch :=
      st.reverb_edit_mod_speed_switch.capture sw1 },
    fun st => { st with reverb_edit_mod_depth_switch :=
      st.reverb_edit_mod_depth_switch.capture sw2 },
    fun st => { st with reverb_edit_mod_shape_switch :=
      st.reverb_edit_mod_shape_switch.capture sw3 },
    fun st => { st with pedal_mode := .editReverb } ]

/-- The statement sequence of enterTapTempoMode, one atomic global write
per step, in source order: set the active flag, record the entry time,
derive the two control flags from the current bypass state (one basic
block in the source), capture the two knob takeovers, and change
pedal_mode last. -/
def enterTapTempoSteps (now : ℕ) (knob4 knob2 : ℚ) :
    List (ControlState → ControlState) :=
  [ fun st => { st with tap_tempo_active := true },
    fun st => { st with tap_tempo_last_tap_time := now },
    fun st =>
      { st with
          tap_tempo_controls_delay :=
            (tapTempoControlFlags (!st.bypass_delay) (!st.bypass_trem)).1
          tap_tempo_controls_tremolo :=
            (tapTempoControlFlags (!st.bypass_delay) (!st.bypass_trem)).2 },
    fun st => { st with tap_tempo_delay_knob_takeover :=
      st.tap_tempo_delay_knob_takeover.capture knob4 },
    fun st => { st with tap_tempo_tremolo_knob_takeover :=
      st.tap_tempo_tremolo_knob_takeover.capture knob2 },
    fun st => { st with pedal_mode := .tapTempo } ]

/-- The step-list model and the monolithic enterTapTempoMode agree. -/
lemma enterTapTempoSteps_agrees (st : ControlState) (now : ℕ)
    (knob4 knob2 : ℚ) :
    runSteps (enterTapTempoSteps now knob4 knob2) st =
      enterTapTempoMode st now knob4 knob2 := rfl

/-- All nine reverb-edit takeover objects hold freshly captured state for
the given control readings. -/
def editReverbCapturesFresh (r : ControlState) (k1 k2 k3 k4 k5 k6 : ℚ)
    (sw1 sw2 sw3 : Int) : Prop :=
  r.reverb_edit_wet_amount_knob = ⟨k1, false⟩ ∧
  r.reverb_edit_pre_delay_knob = ⟨k2, false⟩ ∧
  r.reverb_edit_decay_knob = ⟨k3, false⟩ ∧
  r.reverb_edit_diffusion_knob = ⟨k4, false⟩ ∧
  r.reverb_edit_input_cut_knob = ⟨k5, false⟩ ∧
  r.reverb_edit_tank_cut_knob = ⟨k6, false⟩ ∧
  r.reverb_edit_mod_speed_switch = ⟨sw1, false⟩ ∧
  r.reverb_edit_mod_depth_switch = ⟨sw2, false⟩ ∧
  r.reverb_edit_mod_shape_switch = ⟨sw3, false⟩

/-- The tap-tempo mode state is fully initialized relative to the entry
state st0: active flag set, entry time recorded, control flags derived
from st0's bypass state, both knob takeovers freshly captured. -/
def tapTempoInitFresh (r : ControlState) (st0 : ControlState) (now : ℕ)
    (knob4 knob2 : ℚ) : Prop :=
  r.tap_tempo_active = true ∧
  r.tap_tempo_last_tap_time = now ∧
  (r.tap_tempo_controls_delay, r.tap_tempo_controls_tremolo) =
    tapTempoControlFlags (!st0.bypass_delay) (!st0.bypass_trem) ∧
  r.tap_tempo_delay_knob_takeover = ⟨knob4, false⟩ ∧
  r.tap_tempo_tremolo_knob_takeover = ⟨knob2, false⟩

/-- C9: for both mode-entering transitions (long-press into EditReverb,
double-press into TapTempo), every prefix of the entry statement sequence
whose resulting state already shows the new pedal_mode has all the
mode-specific state fully initialized: no observable state pairs the new
mode with stale capture state. -/
theorem C9_init_before_mode_change (st : ControlState)
    (hmode : st.pedal_mode = PedalMode.normal)
    (k1 k2 k3 k4 k5 k6 : ℚ) (sw1 sw2 sw3 : Int) (now : ℕ) (tk4 tk2 : ℚ)
    (n m : ℕ) :
    ((runSteps ((enterEditReverbSteps k1 k2 k3 k4 k5 k6 sw1 sw2 sw3).take n)
        st).pedal_mode = PedalMode.editReverb →
      editReverbCapturesFresh
        (runSteps ((enterEditReverbSteps k1 k2 k3 k4 k5 k6 sw1 sw2 sw3).take n)
          st) k1 k2 k3 k4 k5 k6 sw1 sw2 sw3 ∧
      (runSteps ((enterEditReverbSteps k1 k2 k3 k4 k5 k6 sw1 sw2 sw3).take n)
        st).bypass_verb = false) ∧
    ((runSteps ((enterTapTempoSteps now tk4 tk2).take m) st).pedal_mode =
        PedalMode.tapTempo →
      tapTempoInitFresh (runSteps ((enterTapTempoSteps now tk4 tk2).take m) st)
        st now tk4 tk2) := by
  constructor
  · rcases n with _|_|_|_|_|_|_|_|_|_|_|n
    all_goals
      first
      | (intro h
         have h2 : st.pedal_mode = PedalMode.editReverb := h
         rw [hmode] at h2
         exact PedalMode.noConfusion h2)
      | (intro h
         rw [List.take_of_length_le (by simp [enterEditReverbSteps])]
         exact ⟨⟨rfl, rfl, rfl, rfl, rfl, rfl, rfl, rfl, rfl⟩, rfl⟩)
  · rcases m with _|_|_|_|_|_|m
    all_goals
      first
      | (intro h
         have h2 : st.pedal_mode = PedalMode.tapTempo := h
         rw [hmode] at h2
         exact PedalMode.noConfusion h2)
      | (intro h
         rw [List.take_of_length_le (by simp [enterTapTempoSteps])]
         exact ⟨rfl, rfl, rfl, rfl, rfl⟩)

/-- C9 witness: the ordering theorem instantiated at a concrete Normal
state and the full statement sequences (prefix length 11 for reverb edit,
6 for tap tempo), with the entry conditions discharged concretely. -/
theorem C9_init_before_mode_change_witness :
    ({ pedal_mode := .normal, bypass_verb := true, bypass_delay := false,
        bypass_trem := true, tap_tempo_active := false,
        tap_tempo_last_tap_time := 0, tap_tempo_interval_ms := 0,
        tap_tempo_delay_samples := 0, tap_tempo_controls_delay := false,
        tap_tempo_tremolo_freq_hz := 0, tap_tempo_controls_tremolo := false,
        tap_tempo_delay_knob_takeover := ⟨9, true⟩,
        tap_tempo_tremolo_knob_takeover := ⟨9, true⟩,
        reverb_edit_wet_amount_knob := ⟨9, true⟩,
        reverb_edit_pre_delay_knob := ⟨9, true⟩,
        reverb_edit_decay_knob := ⟨9, true⟩,
        reverb_edit_diffusion_knob := ⟨9, true⟩,
        reverb_edit_input_cut_knob := ⟨9, true⟩,
        reverb_edit_tank_cut_knob := ⟨9, true⟩,
        reverb_edit_mod_speed_switch := ⟨9, true⟩,
        reverb_edit_mod_depth_switch := ⟨9, true⟩,
        reverb_edit_mod_shape_switch := ⟨9, true⟩,
        master_delay_time_samples := 0, osc_freq := 0,
        delayL_target := 0, delayR_target := 0 } : ControlState).pedal_mode =
      PedalMode.normal ∧
    (editReverbCapturesFresh
      (runSteps ((enterEditReverbSteps 1 2 3 4 5 6 0 1 2).take 11)
        { pedal_mode := .normal, bypass_verb := true, bypass_delay := false,
          bypass_trem := true, tap_tempo_active := false,
          tap_tempo_last_tap_time := 0, tap_tempo_interval_ms := 0,
          tap_tempo_delay_samples := 0, tap_tempo_controls_delay := false,
          tap_tempo_tremolo_freq_hz := 0, tap_tempo_controls_tremolo := false,
          tap_tempo_delay_knob_takeover := ⟨9, true⟩,
          tap_tempo_tremolo_knob_takeover := ⟨9, true⟩,
          reverb_edit_wet_amount_knob := ⟨9, true⟩,
          reverb_edit_pre_delay_knob := ⟨9, true⟩,
          reverb_edit_decay_knob := ⟨9, true⟩,
          reverb_edit_diffusion_knob := ⟨9, true⟩,
          reverb_edit_input_cut_knob := ⟨9, true⟩,
          reverb_edit_tank_cut_knob := ⟨9, true⟩,
          reverb_edit_mod_speed_switch := ⟨9, true⟩,
          reverb_edit_mod_depth_switch := ⟨9, true⟩,
          reverb_edit_mod_shape_switch := ⟨9, true⟩,
          master_delay_time_samples := 0, osc_freq := 0,
          delayL_target := 0, delayR_target := 0 }) 1 2 3 4 5 6 0 1 2) ∧
    tapTempoInitFresh
      (runSteps ((enterTapTempoSteps 500 (1/4) (3/4)).take 6)
        { pedal_mode := .normal, bypass_verb := true, bypass_delay := false,
          bypass_trem := true, tap_tempo_active := false,
          tap_tempo_last_tap_time := 0, tap_tempo_interval_ms := 0,
          tap_tempo_delay_samples := 0, tap_tempo_controls_delay := false,
          tap_tempo_tremolo_freq_hz := 0, tap_tempo_controls_tremolo := false,
          tap_tempo_delay_knob_takeover := ⟨9, true⟩,
          tap_tempo_tremolo_knob_takeover := ⟨9, true⟩,
          reverb_edit_wet_amount_knob := ⟨9, true⟩,
          reverb_edit_pre_delay_knob := ⟨9, true⟩,
          reverb_edit_decay_knob := ⟨9, true⟩,
          reverb_edit_diffusion_knob := ⟨9, true⟩,
          reverb_edit_input_cut_knob := ⟨9, true⟩,
          reverb_edit_tank_cut_knob := ⟨9, true⟩,
          reverb_edit_mod_speed_switch := ⟨9, true⟩,
          reverb_edit_mod_depth_switch := ⟨9, true⟩,
          reverb_edit_mod_shape_switch := ⟨9, true⟩,
          master_delay_time_samples := 0, osc_freq := 0,
          delayL_target := 0, delayR_target := 0 })
      { pedal_mode := .normal, bypass_verb := true, bypass_delay := false,
        bypass_trem := true, tap_tempo_active := false,
        tap_tempo_last_tap_time := 0, tap_tempo_interval_ms := 0,
        tap_tempo_delay_samples := 0, tap_tempo_controls_delay := false,
        tap_tempo_tremolo_freq_hz := 0, tap_tempo_controls_tremolo := false,
        tap_tempo_delay_knob_takeover := ⟨9, true⟩,
        tap_tempo_tremolo_knob_takeover := ⟨9, true⟩,
        reverb_edit_wet_amount_knob := ⟨9, true⟩,
        reverb_edit_pre_delay_knob := ⟨9, true⟩,
        reverb_edit_decay_knob := ⟨9, true⟩,
        reverb_edit_diffusion_knob := ⟨9, true⟩,
        reverb_edit_input_cut_knob := ⟨9, true⟩,
        reverb_edit_tank_cut_knob := ⟨9, true⟩,
        reverb_edit_mod_speed_switch := ⟨9, true⟩,
        reverb_edit_mod_depth_switch := ⟨9, true⟩,
        reverb_edit_mod_shape_switch := ⟨9, true⟩,
        master_delay_time_samples := 0, osc_freq := 0,
        delayL_target := 0, delayR_target := 0 } 500 (1/4) (3/4) := by
  have h := C9_init_before_mode_change
    { pedal_mode := .normal, bypass_verb := true, bypass_delay := false,
      bypass_trem := true, tap_tempo_active := false,
      tap_tempo_last_tap_time := 0, tap_tempo_interval_ms := 0,
      tap_tempo_delay_samples := 0, tap_tempo_controls_delay := false,
      tap_tempo_tremolo_freq_hz := 0, tap_tempo_controls_tremolo := false,
      tap_tempo_delay_knob_takeover := ⟨9, true⟩,
      tap_tempo_tremolo_knob_takeover := ⟨9, true⟩,
      reverb_edit_wet_amount_knob := ⟨9, true⟩,
      reverb_edit_pre_delay_knob := ⟨9, true⟩,
      reverb_edit_decay_knob := ⟨9, true⟩,
      reverb_edit_diffusion_knob := ⟨9, true⟩,
      reverb_edit_input_cut_knob := ⟨9, true⟩,
      reverb_edit_tank_cut_knob := ⟨9, true⟩,
      reverb_edit_mod_speed_switch := ⟨9, true⟩,
      reverb_edit_mod_depth_switch := ⟨9, true⟩,
      reverb_edit_mod_shape_switch := ⟨9, true⟩,
      master_delay_time_samples := 0, osc_freq := 0,
      delayL_target := 0, delayR_target := 0 } rfl 1 2 3 4 5 6 0 1 2 500
    (1/4) (3/4) 11 6
  exact ⟨rfl, (h.1 rfl).1, h.2 rfl⟩

end Flick
